import Mathlib

/-!
Shallow embedding of `src/AI/core/config.ts` from the DBMS repository.

The source file is a single declarative TypeScript module. It pulls `ollama`
from the package 'ollama-ai-provider' and the type `Config` from the package
'opencoder', and its whole body is:

  export default {
    model: ollama('qwen2.5-coder:7b'),
    systemPrompt: "Ты - опытный программист, помогающий писать чистый и эффективный код.",
    maxTokens: 4096,
  } satisfies Config;

The `ollama` factory and the `Config` type come from external packages that
are not part of this repository, so they are modelled from the spec (see the
doc comments below). Everything else is a direct translation of the literal
record in the source.
-/

/-- Modelled from the spec: the `ollama` provider binding from the external
package `ollama-ai-provider` is not part of this repository. Per the spec,
the `model` field is "a reference to an externally-managed provider binding
(e.g., a factory call identifying a local inference endpoint and model
identifier)", so a model reference is a pure descriptor consisting of a
provider identity plus a model name. -/
structure ModelRef where
  provider : String
  modelName : String
deriving DecidableEq, Repr

/-- Modelled from the spec: the externally supplied factory function of the
`ollama-ai-provider` package, "bound to a specific provider (a local inference
runtime)", applied to a model-name argument. It builds the pure descriptor
identifying the provider and the model. -/
def ollama (name : String) : ModelRef :=
  { provider := "ollama", modelName := name }

/-- Modelled from the spec: the `Config` schema of the external `opencoder`
package is not part of this repository. Per the spec, "the host defines a
configuration schema with at least the fields: `model` (callable model
reference), `systemPrompt` (string), `maxTokens` (integer)". -/
structure Config where
  model : ModelRef
  systemPrompt : String
  maxTokens : Int
deriving DecidableEq, Repr

/-- The default export of `src/AI/core/config.ts`: the literal configuration
record. -/
def config : Config :=
  { model := ollama "qwen2.5-coder:7b"
  , systemPrompt := "Ты - опытный программист, помогающий писать чистый и эффективный код."
  , maxTokens := 4096 }

/-- Loading the configuration module: TypeScript module evaluation produces
the default-export record. Loads take no input ("Input: none (values are
literal constants in this artifact)"), so a load is a function from `Unit`. -/
def loadConfig : Unit → Config :=
  fun _ => config

/-- The construction of the record in `src/AI/core/config.ts`, generalized
over the model-identifier string passed to the factory (the only non-fixed
datum in the literal): used to state the field-independence scenario of the
spec ("changing the model identifier string must not change `systemPrompt`
or `maxTokens`"). -/
def mkConfig (name : String) : Config :=
  { model := ollama name
  , systemPrompt := "Ты - опытный программист, помогающий писать чистый и эффективный код."
  , maxTokens := 4096 }

/-- A field value of the JavaScript object literal, for the object-shaped
view of the record (a JS object is a finite map from field names to values). -/
inductive Value where
  | str : String → Value
  | int : Int → Value
  | modelRef : ModelRef → Value
deriving DecidableEq, Repr

/-- The object-literal view of the default export of `src/AI/core/config.ts`:
the record written in the source, as the ordered list of its field
name / value pairs, exactly as they appear in the file. -/
def configObject : List (String × Value) :=
  [ ("model", Value.modelRef (ollama "qwen2.5-coder:7b"))
  , ("systemPrompt", Value.str "Ты - опытный программист, помогающий писать чистый и эффективный код.")
  , ("maxTokens", Value.int 4096) ]

/-- Modelled from the spec: the structural check `satisfies Config` performed
by the host's type system on the object literal — "it must supply `model`,
`systemPrompt`, `maxTokens`", with `systemPrompt` a string and `maxTokens` an
integer; further fields are unconstrained optional fields of the schema. -/
def satisfiesConfigSchema (o : List (String × Value)) : Bool :=
  (match o.lookup "model" with
    | some (Value.modelRef _) => true
    | _ => false) &&
  (match o.lookup "systemPrompt" with
    | some (Value.str _) => true
    | _ => false) &&
  (match o.lookup "maxTokens" with
    | some (Value.int _) => true
    | _ => false)

/-- Modelled from the spec: the descriptor's lifecycle — "the descriptor has
exactly one state (constructed) and no transitions"; there is no mutation
code anywhere in the source module, so the transition relation is empty. -/
inductive ConfigState where
  | constructed : Config → ConfigState
deriving DecidableEq, Repr

/-- Modelled from the spec: the (empty) set of state transitions of the
descriptor — the source contains no mutation of the exported record, and
"no mutation API exists or is needed". -/
def configTransition : ConfigState → ConfigState → Prop :=
  fun _ _ => False

/-- An observable effect of evaluating the configuration module, for stating
the no-I/O contract of construction. -/
inductive Effect where
  | network : Effect
  | blocking : Effect
deriving DecidableEq, Repr

/-- Modelled from the spec: the provider factory with its effect trace —
"constructing the `model` field may eagerly bind to a provider factory ...
but must not perform network I/O or block at this stage — binding is lazy".
The factory returns the pure descriptor and performs no effect. -/
def ollamaTraced (name : String) : ModelRef × List Effect :=
  (ollama name, [])

/-- Construction of the configuration record together with the trace of
effects it performs: the only sub-computation of the literal record in
`src/AI/core/config.ts` is the factory call `ollama('qwen2.5-coder:7b')`;
the remaining fields are string and number literals, which are effect-free. -/
def loadConfigTraced : Config × List Effect :=
  let m := ollamaTraced "qwen2.5-coder:7b"
  ( { model := m.1
    , systemPrompt := "Ты - опытный программист, помогающий писать чистый и эффективный код."
    , maxTokens := 4096 }
  , m.2 )

/- ------------------------------------------------------------------ -/
/- Theorems settling the claims                                        -/
/- ------------------------------------------------------------------ -/

/-- C1: Loading the configuration yields a record whose `maxTokens` field
equals exactly 4096 and whose `systemPrompt` field equals the exact string
"Ты - опытный программист, помогающий писать чистый и эффективный код."
byte-for-byte, including the non-ASCII (Cyrillic) characters. -/
theorem c1_load_yields_literal_values :
    (loadConfig ()).maxTokens = 4096 ∧
    (loadConfig ()).systemPrompt =
      "Ты - опытный программист, помогающий писать чистый и эффективный код." :=
  ⟨rfl, rfl⟩

/-- C2: The `maxTokens` field of the produced configuration record is a
positive integer: `maxTokens > 0`. -/
theorem c2_maxTokens_positive : config.maxTokens > 0 := by
  decide

/-- C3: The `systemPrompt` field of the produced configuration record is a
non-empty string. -/
theorem c3_systemPrompt_nonempty : config.systemPrompt ≠ "" := by
  decide

/-- C4: The `model` field is obtained by exactly one call to the externally
supplied provider factory (the ollama binding) applied to the model-name
argument "qwen2.5-coder:7b", which is a non-empty identifier string; in the
embedding the factory is the sole externally-modelled operation the record's
construction invokes. -/
theorem c4_model_from_factory :
    config.model = ollama "qwen2.5-coder:7b" ∧
    "qwen2.5-coder:7b" ≠ "" ∧
    config.model.provider = "ollama" := by
  refine ⟨rfl, ?_, rfl⟩
  decide

/-- C5: The produced configuration record structurally conforms to the
host's configuration schema: it supplies all three required fields `model`,
`systemPrompt` (a string) and `maxTokens` (an integer); the object-literal
view passes the schema check, and its fields agree with the record view. -/
theorem c5_conforms_to_schema :
    satisfiesConfigSchema configObject = true ∧
    configObject.lookup "model" = some (Value.modelRef config.model) ∧
    configObject.lookup "systemPrompt" = some (Value.str config.systemPrompt) ∧
    configObject.lookup "maxTokens" = some (Value.int config.maxTokens) :=
  ⟨rfl, rfl, rfl, rfl⟩

/-- C6: Construction of the configuration is deterministic and idempotent:
any two loads of the configuration produce structurally equal records — the
same `systemPrompt`, the same `maxTokens` and the same model reference, with
no hidden state changing across loads. -/
theorem c6_load_deterministic (u v : Unit) :
    loadConfig u = loadConfig v ∧
    (loadConfig u).systemPrompt = (loadConfig v).systemPrompt ∧
    (loadConfig u).maxTokens = (loadConfig v).maxTokens ∧
    (loadConfig u).model = (loadConfig v).model :=
  ⟨rfl, rfl, rfl, rfl⟩

/-- C7: Field independence: for every two model identifier strings,
constructing the configuration record with the model field built from one
identifier versus the other yields records whose `systemPrompt` and
`maxTokens` fields are equal. -/
theorem c7_field_independence (n₁ n₂ : String) :
    (mkConfig n₁).systemPrompt = (mkConfig n₂).systemPrompt ∧
    (mkConfig n₁).maxTokens = (mkConfig n₂).maxTokens :=
  ⟨rfl, rfl⟩

/-- The generalized construction instantiated at the source's literal model
identifier is exactly the record of `src/AI/core/config.ts`. -/
theorem mkConfig_source_name : mkConfig "qwen2.5-coder:7b" = config :=
  rfl

/-- C8: The configuration record is constructed exactly once per process
load and is immutable thereafter: the descriptor's state space has
`constructed` as its only state shape, the transition relation is empty, and
consequently every field holds the same value in any two reachable states of
the same lifetime (any transition-related pair of states is equal). -/
theorem c8_immutable_no_transitions :
    (∀ s s' : ConfigState, ¬ configTransition s s') ∧
    (∀ s : ConfigState, ∃ c : Config, s = ConfigState.constructed c) ∧
    (∀ c c' : Config, configTransition (ConfigState.constructed c)
        (ConfigState.constructed c') → c = c') := by
  refine ⟨fun s s' h => h, fun s => ?_, fun c c' h => h.elim⟩
  cases s with
  | constructed c => exact ⟨c, rfl⟩

/-- C9: Constructing the configuration, including the model field's provider
binding, performs no network I/O and does not block: the effect trace of
construction is empty, and the produced record is exactly the literal
configuration record — construction is a synchronous, side-effect-free
evaluation of literal data. -/
theorem c9_no_io_at_construction :
    loadConfigTraced.2 = [] ∧ loadConfigTraced.1 = config :=
  ⟨rfl, rfl⟩

/-- C10: The exported configuration record has exactly the three fields
`model`, `systemPrompt` and `maxTokens`, in that order, and no other
fields. -/
theorem c10_exactly_three_fields :
    configObject.map Prod.fst = ["model", "systemPrompt", "maxTokens"] :=
  rfl
